import Mathlib

/-!
Shallow embedding of the study-aid server's heuristic text pipeline
(`src/server/services/aiService.js`) and of the auth/session-store routes
(`src/server/routes/auth.js`), together with theorems checking the
natural-language specification's claims against these definitions.

JavaScript-specific behaviour is modelled explicitly:
 - `String.prototype.split(/[.!?]+/)` and `split(/\s+/)` split on maximal
   nonempty runs of separator characters, keeping empty boundary segments;
 - `Array.prototype.sort(cmp)` is a stable sort (ES2019); it is modelled by
   a stable insertion sort `sortLe le` where `le a b` means `cmp a b <= 0`;
 - string lengths count characters (the sources only feed ASCII-ish text);
 - truthiness tests on strings (`if (s)`) are modelled as `s != ""`.
-/

set_option maxHeartbeats 1000000
set_option maxRecDepth 100000

namespace StudyMate

/-- Characters matched by the sentence-splitting regex `[.!?]+`. -/
def isSentenceTerm (c : Char) : Bool :=
  c == '.' || c == '!' || c == '?'

/-- Characters matched by the JavaScript whitespace class `\s` (the ones that
can occur in practice). -/
def jsIsSpace (c : Char) : Bool :=
  c == ' ' || c == '\t' || c == '\n' || c == '\r' ||
  c == '\x0b' || c == '\x0c' || c == ' '

/-- `String.prototype.split` on a regex `X+` for a character class `X`:
splits on maximal nonempty runs of separator characters and keeps the empty
segments that arise at the boundaries (JS semantics). Implemented by a right
fold carrying the segments accumulated so far plus a flag recording whether
the character to the right was a separator. -/
def jsSplitOnRuns (isSep : Char → Bool) (s : String) : List String :=
  (s.data.foldr
    (fun c st =>
      if isSep c then
        if st.2 then st else ("" :: st.1, true)
      else
        match st.1 with
        | [] => ([String.singleton c], false)
        | seg :: rest => ((String.singleton c ++ seg) :: rest, false))
    ([""], false)).1

/-- `needle` occurs at the start of `hay` (helper for `jsIncludes`). -/
def leadsWith : List Char → List Char → Bool
  | [], _ => true
  | _ :: _, [] => false
  | a :: as, b :: bs => a == b && leadsWith as bs

/-- Substring occurrence over character lists (helper for `jsIncludes`). -/
def containsSeq : List Char → List Char → Bool
  | [], needle => needle.isEmpty
  | c :: rest, needle => leadsWith needle (c :: rest) || containsSeq rest needle

/-- `String.prototype.includes`. -/
def jsIncludes (hay needle : String) : Bool :=
  containsSeq hay.data needle.data

/-- `String.prototype.trim` (strips JS whitespace from both ends). -/
def jsTrim (s : String) : String :=
  String.mk (((s.data.dropWhile jsIsSpace).reverse.dropWhile jsIsSpace).reverse)

/-- `String.prototype.toLowerCase` (ASCII). -/
def jsToLower (s : String) : String :=
  String.mk (s.data.map Char.toLower)

/-- `capitalizeFirstLetter` from aiService.js:
`string.charAt(0).toUpperCase() + string.slice(1)`. -/
def capitalizeFirstLetter (s : String) : String :=
  match s.data with
  | [] => ""
  | c :: cs => String.mk (c.toUpper :: cs)

/-- Stable ordered insert: places `a` before the first element `b` of the
sorted list with `le a b`. -/
def insertLe (le : α → α → Bool) (a : α) : List α → List α
  | [] => [a]
  | b :: l => if le a b then a :: b :: l else b :: insertLe le a l

/-- Stable insertion sort. With `le a b := cmp a b ≤ 0` this has exactly the
semantics of JavaScript's (stable) `Array.prototype.sort(cmp)` for the total
comparators used in aiService.js. -/
def sortLe (le : α → α → Bool) : List α → List α
  | [] => []
  | a :: l => insertLe le a (sortLe le l)

/-! ### aiService.js — keyword tables and small helpers -/

/-- Keyword list of `hasImportantKeywords` (aiService.js line 84). -/
def importantKeywords : List String :=
  ["important", "key", "main", "primary", "essential", "crucial", "significant", "major"]

/-- `hasImportantKeywords(sentence)` (aiService.js lines 83–87). -/
def hasImportantKeywords (sentence : String) : Bool :=
  importantKeywords.any (fun keyword => jsIncludes (jsToLower sentence) keyword)

/-- Indicator list of `isDefinition` (aiService.js line 350). -/
def definitionIndicators : List String :=
  ["is defined as", "means that", "refers to", "is called", "known as"]

/-- `isDefinition(sentence)` (aiService.js lines 349–353). -/
def isDefinition (sentence : String) : Bool :=
  definitionIndicators.any (fun indicator => jsIncludes (jsToLower sentence) indicator)

/-- Indicator list of `containsProcess` (aiService.js line 331). -/
def processIndicators : List String :=
  ["process", "step", "stage", "phase", "cycle", "method", "procedure"]

/-- `containsProcess(text)` (aiService.js lines 330–334). -/
def containsProcess (text : String) : Bool :=
  processIndicators.any (fun indicator => jsIncludes (jsToLower text) indicator)

/-- Indicator list of `extractProcessSteps` (aiService.js line 338). -/
def stepIndicators : List String :=
  ["first", "second", "third", "then", "next", "after", "finally", "step"]

/-- `extractProcessSteps(text)` (aiService.js lines 336–347). -/
def extractProcessSteps (text : String) : List String :=
  (((jsSplitOnRuns isSentenceTerm text).filter
      (fun sentence =>
        stepIndicators.any (fun indicator => jsIncludes (jsToLower sentence) indicator) &&
        sentence.length < 100)).take 3).map jsTrim

/-! ### aiService.js — extractMainTopic -/

/-- ASCII alphanumeric test: the characters kept by the regex replacement
`word.replace(/[^a-zA-Z0-9]/g, '')`. -/
def isAsciiAlnum (c : Char) : Bool :=
  ('a' ≤ c && c ≤ 'z') || ('A' ≤ c && c ≤ 'Z') || ('0' ≤ c && c ≤ '9')

/-- Stopword list of `extractMainTopic` (aiService.js line 284). -/
def mainTopicCommonWords : List String :=
  ["the", "is", "in", "and", "to", "of", "that", "this", "with", "for", "on",
   "are", "which", "what", "how", "when", "where", "why"]

/-- `wordFreq[cleanWord] = (wordFreq[cleanWord] || 0) + 1` on an association
list that keeps keys in first-insertion order (JS object property order for
string keys). -/
def bumpFreq : List (String × Nat) → String → List (String × Nat)
  | [], w => [(w, 1)]
  | (k, n) :: rest, w =>
    if k = w then (k, n + 1) :: rest else (k, n) :: bumpFreq rest w

/-- Frequency lookup in the association list (0 when absent). -/
def lookupFreq (freq : List (String × Nat)) (k : String) : Nat :=
  match freq.find? (fun p => p.1 == k) with
  | some p => p.2
  | none => 0

/-- A JS object property key that counts as an array index (canonical decimal
numeral below 2^32 − 1): such keys are enumerated first, in ascending numeric
order, by `Object.keys`. -/
def isArrayIndexKey (s : String) : Bool :=
  match s.toNat? with
  | none => false
  | some n => toString n == s && n < 4294967295

/-- `Object.keys` enumeration order: array-index keys ascending, then the
remaining string keys in insertion order. -/
def jsObjectKeys (freq : List (String × Nat)) : List String :=
  sortLe (fun a b => decide ((a.toNat?).getD 0 ≤ (b.toNat?).getD 0))
      ((freq.map (fun p => p.1)).filter isArrayIndexKey)
    ++ (freq.map (fun p => p.1)).filter (fun k => !isArrayIndexKey k)

/-- `extractMainTopic(text)` (aiService.js lines 282–296): frequency count of
cleaned lowercase tokens longer than 4 characters that are not stopwords;
returns the most frequent one capitalized, else "Learning Concepts". The key
sort `(a, b) => wordFreq[b] - wordFreq[a]` is modelled as the stable sort by
`wordFreq[b] - wordFreq[a] ≤ 0`. -/
def extractMainTopic (text : String) : String :=
  let words := jsSplitOnRuns jsIsSpace (jsToLower text)
  let wordFreq := words.foldl
    (fun freq word =>
      let cleanWord := String.mk (word.data.filter isAsciiAlnum)
      if cleanWord.length > 4 && !(mainTopicCommonWords.contains cleanWord) then
        bumpFreq freq cleanWord
      else freq)
    []
  let sortedWords := sortLe
    (fun a b => decide ((lookupFreq wordFreq b : Int) - (lookupFreq wordFreq a : Int) ≤ 0))
    (jsObjectKeys wordFreq)
  match sortedWords with
  | [] => "Learning Concepts"
  | w :: _ => if w == "" then "Learning Concepts" else capitalizeFirstLetter w

/-! ### aiService.js — extractKeyTerms -/

/-- Stopword list of `extractKeyTerms` (aiService.js line 303). -/
def keyTermCommonWords : List String :=
  ["however", "although", "because", "therefore", "additionally"]

/-- The regex test `/^[a-zA-Z]+$/.test(word)`. -/
def isAlphaOnly (w : String) : Bool :=
  !w.data.isEmpty && w.data.all (fun c => ('a' ≤ c && c ≤ 'z') || ('A' ≤ c && c ≤ 'Z'))

/-- First-seen-order deduplication: `[...new Set(words)]`. -/
def dedupFirstAux (seen : List String) : List String → List String
  | [] => []
  | w :: ws =>
    if seen.contains w then dedupFirstAux seen ws
    else w :: dedupFirstAux (w :: seen) ws

/-- The filter applied to the first 8 unique long tokens (aiService.js
lines 303–307). -/
def keyTermFilter (w : String) : Bool :=
  !(keyTermCommonWords.contains (jsToLower w)) && isAlphaOnly w

/-- The candidate list of `extractKeyTerms`: whitespace tokens longer than 6
characters, deduplicated in first-seen order, capped to the first 8
(`[...new Set(words)].slice(0, 8)`), then filtered (aiService.js
lines 298–307). -/
def keyTermCandidates (text : String) : List String :=
  (((dedupFirstAux [] ((jsSplitOnRuns jsIsSpace text).filter (fun w => w.length > 6))).take 8).filter
    keyTermFilter)

/-- `extractKeyTerms(text)` (aiService.js lines 298–311). -/
def extractKeyTerms (text : String) : List String :=
  if (keyTermCandidates text).length ≥ 4 then (keyTermCandidates text).take 4
  else ["Concept", "Theory", "Application", "Method", "Principle", "Analysis"].take 4

/-- The distractor lookup table (aiService.js lines 314–325). -/
def distractorTable : List (String × String) :=
  [("machine", "artificial intelligence"), ("learning", "training"),
   ("photosynthesis", "respiration"), ("water", "air"), ("cycle", "process"),
   ("computer", "technology"), ("programming", "coding"), ("algorithm", "method"),
   ("data", "information"), ("network", "system")]

/-- `generateDistractor(correctAnswer)` (aiService.js lines 313–328). -/
def generateDistractor (correctAnswer : String) : String :=
  match distractorTable.find? (fun p => p.1 == jsToLower correctAnswer) with
  | some p => p.2
  | none => "Related but different concept"

/-! ### aiService.js — generateSmartSummary -/

/-- The record built for each kept sentence in `generateSmartSummary`
(aiService.js lines 62–67): trimmed text, raw segment length, position in the
filtered list, keyword flag computed on the raw segment. -/
structure SummarySentence where
  sentence : String
  length : Nat
  position : Nat
  hasKeywords : Bool
deriving DecidableEq

/-- The comparator of aiService.js lines 68–74 (keyword sentences first, then
longer sentences, then earlier positions), returning the JS number as an
integer. -/
def summaryCmp (a b : SummarySentence) : Int :=
  if a.hasKeywords && !b.hasKeywords then -1
  else if !a.hasKeywords && b.hasKeywords then 1
  else if a.length ≠ b.length then (b.length : Int) - (a.length : Int)
  else (a.position : Int) - (b.position : Int)

/-- The sentence records of `generateSmartSummary` (split on `[.!?]+`, keep
segments whose trimmed length exceeds 10, then map to records). -/
def summaryRecords (text : String) : List SummarySentence :=
  ((jsSplitOnRuns isSentenceTerm text).filter (fun s => (jsTrim s).length > 10)).enum.map
    (fun p =>
      { sentence := jsTrim p.2, length := p.2.length, position := p.1,
        hasKeywords := hasImportantKeywords p.2 })

/-- `generateSmartSummary(text)` (aiService.js lines 57–81): sort the records
with the comparator, take the top 4, restore original order by the position
comparator `(a, b) => a.position - b.position`, join with `". "`, append a
final period and the fixed marker suffix. -/
def generateSmartSummary (text : String) : String :=
  String.intercalate ". "
      ((sortLe (fun a b => decide ((a.position : Int) - (b.position : Int) ≤ 0))
        ((sortLe (fun a b => decide (summaryCmp a b ≤ 0)) (summaryRecords text)).take 4)).map
        (fun item => item.sentence))
    ++ "." ++ " [AI Enhanced Summary]"

/-! ### aiService.js — generateSmartQuiz -/

structure QuizQuestion where
  question : String
  options : List String
  correct : Nat
  explanation : String
deriving DecidableEq

/-- The padding question pushed by the `while (questions.length < 2)` loop
(aiService.js lines 155–167). -/
def genericQuizQuestion : QuizQuestion :=
  { question := "What type of educational content is this?",
    options := ["Study material for learning", "Entertainment content",
                "Advertising material", "Personal diary entry"],
    correct := 0,
    explanation := "This appears to be educational study material designed for learning purposes." }

/-- The up-to-three contextual questions of `generateSmartQuiz` (aiService.js
lines 109–152): a main-topic question when the topic string is truthy, a
key-concept question when `keyTerms` is nonempty (it uses `keyTerms[0]`), and
a process question when the text contains a process indicator. -/
def quizBaseQuestions (text : String) : List QuizQuestion :=
  (if extractMainTopic text ≠ "" then
    [{ question := "What is the main topic of this text?",
       options := [extractMainTopic text, generateDistractor (extractMainTopic text),
                   generateDistractor (extractMainTopic text), "A completely different subject"],
       correct := 0,
       explanation := "The text primarily focuses on " ++ extractMainTopic text ++
         ", as evidenced by the content and key terms." }]
  else [])
  ++ (match extractKeyTerms text with
      | [] => []
      | keyTerm :: _ =>
        [{ question := "Which of these is a key concept mentioned in the text?",
           options := [keyTerm, generateDistractor keyTerm,
                       "Unrelated concept 1", "Unrelated concept 2"],
           correct := 0,
           explanation := keyTerm ++ " is a key concept discussed in the material." }])
  ++ (if containsProcess text then
    [{ question := "What does the text describe?",
       options := ["A process or method", "A historical event",
                   "A fictional story", "A product review"],
       correct := 0,
       explanation := "The text describes a process or method based on the content structure." }]
  else [])

/-- `generateSmartQuiz(text)` (aiService.js lines 102–170): the contextual
questions, padded with the generic question until at least 2 exist, capped at
3 by `slice(0, 3)`. (The local `sentences` binding of line 103 is unused by
the source and is omitted.) -/
def generateSmartQuiz (text : String) : List QuizQuestion :=
  (quizBaseQuestions text ++
    List.replicate (2 - (quizBaseQuestions text).length) genericQuizQuestion).take 3

/-! ### aiService.js — generateSmartFlashcards -/

structure Flashcard where
  front : String
  back : String
deriving DecidableEq

/-- The four default flashcards (aiService.js lines 217–222). -/
def defaultFlashcards (text : String) : List Flashcard :=
  [{ front := "Main Topic", back := "The primary subject is " ++ extractMainTopic text ++ "." },
   { front := "Key Concept", back := "Central idea discussed in the material." },
   { front := "Learning Objective", back := "Understanding the core concepts presented." },
   { front := "Study Focus", back := "Focus on the main ideas and relationships." }]

/-- The flashcards created from the key terms (aiService.js lines 190–201):
front is the term, back is a containing sentence shorter than 100 characters
when one exists, else a generic main-topic sentence. -/
def termFlashcards (text : String) : List Flashcard :=
  (extractKeyTerms text).map (fun term =>
    match ((jsSplitOnRuns isSentenceTerm text).filter (fun s => (jsTrim s).length > 10)).find?
        (fun s => jsIncludes (jsToLower s) (jsToLower term) && s.length < 100) with
    | some contextSentence => { front := term, back := "Relates to: " ++ jsTrim contextSentence ++ "." }
    | none => { front := term, back := "Important concept in " ++ extractMainTopic text ++ "." })

/-- The `processSteps.forEach` loop (aiService.js lines 204–214): appends a
"Step N" card per extracted step while fewer than 6 cards exist. -/
def pushProcessCards (cards : List Flashcard) (steps : List (Nat × String)) : List Flashcard :=
  steps.foldl
    (fun cards p =>
      if cards.length < 6 then cards ++ [{ front := "Step " ++ toString (p.1 + 1), back := p.2 }]
      else cards)
    cards

/-- The flashcard list before default padding: term cards, plus the
process-step cards when the text contains a process indicator (aiService.js
lines 187–214). -/
def flashcardsBeforeDefaults (text : String) : List Flashcard :=
  if containsProcess text then
    pushProcessCards (termFlashcards text) (extractProcessSteps text).enum
  else termFlashcards text

/-- `generateSmartFlashcards(text)` (aiService.js lines 183–230): term cards,
then process-step cards when applicable, then padding with the default cards
(`while (flashcards.length < 4)` pushes `defaultFlashcards[flashcards.length]`,
which appends the defaults from that index on), capped at 6. -/
def generateSmartFlashcards (text : String) : List Flashcard :=
  (flashcardsBeforeDefaults text ++
    (defaultFlashcards text).drop (flashcardsBeforeDefaults text).length).take 6

/-! ### aiService.js — extractSmartKeyPoints -/

structure KeyPoint where
  id : Nat
  point : String
deriving DecidableEq

/-- The scored record of `extractSmartKeyPoints` (aiService.js lines 247–267).
Scores are exact rationals: `length / 50` and `(10 − index) / 5` are the JS
number expressions. -/
structure ScoredSentence where
  sentence : String
  score : ℚ
  position : Nat
deriving DecidableEq

/-- The scored sentence list of `extractSmartKeyPoints`: split on `[.!?]+`,
keep segments whose trimmed length exceeds 15, score each by raw length,
keyword flag, definition flag and position. -/
def scoredSentences (text : String) : List ScoredSentence :=
  ((jsSplitOnRuns isSentenceTerm text).filter (fun s => (jsTrim s).length > 15)).enum.map
    (fun p =>
      { sentence := jsTrim p.2,
        score :=
          min ((p.2.length : ℚ) / 50) 3
          + (if hasImportantKeywords p.2 then 2 else 0)
          + (if isDefinition p.2 then 2 else 0)
          + max 0 ((10 - (p.1 : ℚ)) / 5),
        position := p.1 })

/-- `extractSmartKeyPoints(text)` (aiService.js lines 243–279): sort by
`(a, b) => b.score - a.score`, take 5, re-sort by
`(a, b) => a.position - b.position`, then number the points from 1, appending
a period when the sentence does not already end with one. -/
def extractSmartKeyPoints (text : String) : List KeyPoint :=
  ((sortLe (fun a b => decide ((a.position : Int) - (b.position : Int) ≤ 0))
      ((sortLe (fun a b => decide (b.score - a.score ≤ 0)) (scoredSentences text)).take 5)).enum.map
    (fun p =>
      { id := p.1 + 1,
        point := p.2.sentence ++ (if p.2.sentence.endsWith "." then "" else ".") }))

/-! ### aiService.js — generateSummary (the remote call and its fallback) -/

/-- One element of the decoded Hugging Face response array; `summary_text` is
absent when the payload lacks the expected output field. -/
structure HFItem where
  summaryText : Option String
deriving DecidableEq

/-- The decoded JSON payload of the remote call: an optional `error` field and
the response array. -/
structure HFPayload where
  error : Option String
  items : List HFItem
deriving DecidableEq

/-- The observable outcome of the `fetch` call in `generateSummary`
(aiService.js lines 20–43): either the fetch (or `response.json()`) threw, or
a response arrived with an `ok` flag, a status code, and — when the body
decoded — a payload. -/
inductive FetchOutcome where
  | threw (msg : String)
  | response (ok : Bool) (status : Nat) (json : Option HFPayload)
deriving DecidableEq

/-- The final expression `result[0]?.summary_text || this.generateSmartSummary(text)`
of `generateSummary` (aiService.js line 49): falls back when the array is
empty, the field is missing, or the field is falsy (empty string). -/
def firstSummaryText (items : List HFItem) (text : String) : String :=
  match items with
  | [] => generateSmartSummary text
  | item :: _ =>
    match item.summaryText with
    | none => generateSmartSummary text
    | some s => if s = "" then generateSmartSummary text else s

/-- `generateSummary(text)` (aiService.js lines 18–54) as a function of the
fetch outcome: every failure path (thrown exception, `!response.ok`, a body
that fails to decode, a truthy `error` field, a missing or falsy
`result[0]?.summary_text`) lands in the `catch` or the `||` and returns the
heuristic `generateSmartSummary`. The function is total: no exception
propagates. -/
def generateSummary (outcome : FetchOutcome) (text : String) : String :=
  match outcome with
  | .threw _ => generateSmartSummary text
  | .response ok _ json =>
    if !ok then generateSmartSummary text
    else
      match json with
      | none => generateSmartSummary text
      | some payload =>
        match payload.error with
        | some e =>
          if e ≠ "" then generateSmartSummary text
          else firstSummaryText payload.items text
        | none => firstSummaryText payload.items text

/-! ### auth.js — account store and handlers -/

/-- A stored user record (auth.js lines 243–250); `password` holds the bcrypt
hash. -/
structure User where
  id : String
  email : String
  password : String
  name : String
  createdAt : String
  lastLogin : String
deriving DecidableEq

/-- The part of an HTTP JSON response the claims are about. -/
structure ApiResponse where
  status : Nat
  success : Bool
  error : Option String
  token : Option String
deriving DecidableEq

/-- The file-system outcomes `writeUsers` can encounter (auth.js lines
52–117): the verified-write happy path, a read-back whose record count
mismatches, a read-back that throws, and a failure (mkdir/validate/write)
caught by the outer catch. -/
inductive WriteOutcome where
  | okVerified
  | verifyMismatch
  | verifyThrew
  | outerThrew
deriving DecidableEq

/-- The value returned by `writeUsers` on each path (auth.js lines 52–117):
the happy path returns true (line 91), the verification-failure path restores
the backup, keeps the data in memory and returns true (line 106), and the
outer catch keeps the data in memory and returns true (line 115). -/
def writeUsers (outcome : WriteOutcome) : Bool :=
  match outcome with
  | .okVerified => true
  | .verifyMismatch => true
  | .verifyThrew => true
  | .outerThrew => true

/-- The in-memory users after `writeUsers(users)`: every path ends with
`inMemoryUsers = users` (auth.js lines 89, 105, 114). -/
def writeUsersMemory (_ : WriteOutcome) (users : List User) : List User :=
  users

/-- `POST /api/auth/register` (auth.js lines 198–298) as a function of the
request fields, the current user list, the bcrypt hash, the JWT signer, the
id/timestamp sources and the file-system outcome. Returns the response and
the user list passed to `writeUsers`. -/
def registerHandler (hash : String → String) (sign : String → String → String)
    (nowId nowIso : String) (email password name : String) (users : List User)
    (outcome : WriteOutcome) : ApiResponse × List User :=
  if email = "" || password = "" || name = "" then
    ({ status := 400, success := false,
       error := some "All fields are required: name, email, password", token := none }, users)
  else if password.length < 6 then
    ({ status := 400, success := false,
       error := some "Password must be at least 6 characters long", token := none }, users)
  else if !(jsIncludes email "@") then
    ({ status := 400, success := false,
       error := some "Please provide a valid email address", token := none }, users)
  else
    match users.find? (fun user => user.email == jsToLower email) with
    | some _ =>
      ({ status := 409, success := false,
         error := some "User with this email already exists", token := none }, users)
    | none =>
      let newUser : User :=
        { id := nowId, email := jsToLower email, password := hash password,
          name := jsTrim name, createdAt := nowIso, lastLogin := nowIso }
      let users := users ++ [newUser]
      if writeUsers outcome = false then
        ({ status := 500, success := false,
           error := some "Failed to create user account", token := none }, users)
      else
        ({ status := 201, success := true, error := none,
           token := some (sign newUser.id newUser.email) }, users)

/-- Mutating the first matching element of a list (`user.lastLogin = ...` on
the object found by `users.find(...)`). -/
def updateFirst (p : α → Bool) (f : α → α) : List α → List α
  | [] => []
  | a :: l => if p a then f a :: l else a :: updateFirst p f l

/-- `POST /api/auth/login` (auth.js lines 301–378) as a function of the
request fields, the current user list, the bcrypt compare and the JWT signer.
Returns the response and the stored user list afterwards. -/
def loginHandler (compare : String → String → Bool) (sign : String → String → String)
    (nowIso : String) (email password : String) (users : List User) :
    ApiResponse × List User :=
  if email = "" || password = "" then
    ({ status := 400, success := false,
       error := some "Email and password are required", token := none }, users)
  else
    match users.find? (fun u => u.email == jsToLower email) with
    | none =>
      ({ status := 401, success := false,
         error := some "Invalid email or password", token := none }, users)
    | some user =>
      if compare password user.password = false then
        ({ status := 401, success := false,
           error := some "Invalid email or password", token := none }, users)
      else
        ({ status := 200, success := true, error := none,
           token := some (sign user.id user.email) },
         updateFirst (fun u => u.email == jsToLower email)
           (fun u => { u with lastLogin := nowIso }) users)

/-! ### auth.js — study-session store -/

/-- The artifacts stored in a session's `results` map: one optional entry per
requested feature. -/
structure SessionResults where
  summary : Option String
  quiz : Option (List QuizQuestion)
  flashcards : Option (List Flashcard)
  keyPoints : Option (List KeyPoint)
deriving DecidableEq

/-- A stored study session (auth.js lines 750–761). -/
structure StudySession where
  id : String
  userId : String
  originalText : String
  fullTextLength : Nat
  results : SessionResults
  features : List String
  timestamp : String
  wordCount : Nat
  inputType : String
  fileName : Option String
deriving DecidableEq

/-- The session object built by `createStudySession` (auth.js lines 750–761):
the original text is truncated to 150 characters with an ellipsis, the word
count splits on whitespace. -/
def mkStudySession (nowId nowIso : String) (userId text : String)
    (features : List String) (results : SessionResults) (inputType : String)
    (fileName : Option String) : StudySession :=
  { id := nowId, userId := userId,
    originalText :=
      String.mk (text.data.take 150) ++ (if text.length > 150 then "..." else ""),
    fullTextLength := text.length,
    results := results, features := features, timestamp := nowIso,
    wordCount := (jsSplitOnRuns jsIsSpace text).length,
    inputType := inputType, fileName := fileName }

/-- The store update of `createStudySession` (auth.js lines 763–769):
`sessions.unshift(session)` then `sessions.slice(0, 50)` — insert at the
front and keep only the most recent 50 sessions, regardless of user. -/
def createStudySession (session : StudySession) (sessions : List StudySession) :
    List StudySession :=
  (session :: sessions).take 50

/-! ### Definitions following the specification's wording

For the claims that describe an algorithm (C3, C4, C5) a second definition is
built from the specification's sentence, to be compared with the definition
translated from the source. -/

/-- The summary tie-break order exactly as the specification words it:
"has-important-keyword first, then longer length, then earlier position".
`a` may come before `b` iff `a` wins the first differing key. -/
def summaryKeywordFirstLe (a b : SummarySentence) : Bool :=
  if a.hasKeywords && !b.hasKeywords then true
  else if !a.hasKeywords && b.hasKeywords then false
  else if a.length ≠ b.length then decide (b.length < a.length)
  else decide (a.position ≤ b.position)

/-- The fallback summary as the specification describes it: split on sentence
terminators, keep sentences longer than 10 characters (a sentence's text is
its trimmed segment; its recorded length is the raw segment length), sort
with the tie-break order, take the top 4, re-sort into original position
order, join with periods, append the fixed marker suffix. -/
def summaryClaimed (text : String) : String :=
  String.intercalate ". "
      ((sortLe (fun a b => decide (a.position ≤ b.position))
        ((sortLe summaryKeywordFirstLe (summaryRecords text)).take 4)).map
        (fun item => item.sentence))
    ++ "." ++ " [AI Enhanced Summary]"

/-- The key-point score exactly as the specification words it:
`min(length/50, 3) + 2·(has important keyword) + 2·(is a definition pattern)
+ max(0, (10 − position)/5)`. -/
def keyPointScore (sentence : String) (position : Nat) : ℚ :=
  min ((sentence.length : ℚ) / 50) 3
  + (if hasImportantKeywords sentence then 2 else 0)
  + (if isDefinition sentence then 2 else 0)
  + max 0 ((10 - (position : ℚ)) / 5)

/-- Key-point extraction as the specification describes it: keep sentences
longer than 15 characters, score them, select the top 5 by score, re-sort
into original sentence order, number sequentially from 1. -/
def keyPointsClaimed (text : String) : List KeyPoint :=
  let kept := (jsSplitOnRuns isSentenceTerm text).filter (fun s => (jsTrim s).length > 15)
  let scored := kept.enum.map
    (fun p => ({ sentence := jsTrim p.2, score := keyPointScore p.2 p.1, position := p.1 } :
      ScoredSentence))
  let top5 := (sortLe (fun a b => decide (b.score ≤ a.score)) scored).take 5
  let restored := sortLe (fun a b => decide (a.position ≤ b.position)) top5
  restored.enum.map
    (fun p => ({ id := p.1 + 1,
                 point := p.2.sentence ++ (if p.2.sentence.endsWith "." then "" else ".") } :
      KeyPoint))

/-- Key-term extraction exactly as claim C5 words it: whitespace tokens longer
than 6 characters, deduplicated preserving first-seen order, stopwords and
non-alphabetic tokens dropped, first 4 qualifying terms returned; the fixed
generic set whenever fewer than 4 qualify. (No cap on the unique-token list.) -/
def keyTermsClaimed (text : String) : List String :=
  let qualifying :=
    (dedupFirstAux [] ((jsSplitOnRuns jsIsSpace text).filter (fun w => w.length > 6))).filter
      keyTermFilter
  if qualifying.length ≥ 4 then qualifying.take 4
  else ["Concept", "Theory", "Application", "Method"]

/-- Key-term extraction as claim C5 must be amended to match the source:
after deduplication only the first 8 unique tokens are considered
(`[...new Set(words)].slice(0, 8)`); stopwords and non-alphabetic tokens are
dropped among those, the first 4 are returned, and the fixed generic set is
returned whenever fewer than 4 of those 8 qualify. -/
def keyTermsAmended (text : String) : List String :=
  let qualifying :=
    ((dedupFirstAux [] ((jsSplitOnRuns jsIsSpace text).filter (fun w => w.length > 6))).take 8).filter
      keyTermFilter
  if qualifying.length ≥ 4 then qualifying.take 4
  else ["Concept", "Theory", "Application", "Method"]

/-- The failure modes claim C8 enumerates for the remote summarization call:
a thrown exception, a non-success HTTP status, an undecodable body, a truthy
`error` field in the decoded payload, or a missing expected output field. -/
def isRemoteFailure (outcome : FetchOutcome) : Bool :=
  match outcome with
  | .threw _ => true
  | .response ok _ json =>
    !ok ||
    (match json with
     | none => true
     | some payload =>
       (match payload.error with
        | some e => e ≠ ""
        | none => false) ||
       (match payload.items with
        | [] => true
        | item :: _ =>
          match item.summaryText with
          | none => true
          | some _ => false))

/-! ### Concrete inputs used by witnesses and the counterexample -/

/-- A sample study text of more than 30 characters. -/
def sampleEducationText : String :=
  "Machine learning is important. It uses algorithms. Neural networks are key."

/-- A text whose first 8 unique long tokens are all non-alphabetic while 4
later tokens qualify: claim C5's description and the source disagree here. -/
def keyTermsGapText : String :=
  "aaaaaa1 bbbbbb1 cccccc1 ddddddd1 eeeeee1 ffffff1 ggggggg1 hhhhhh1 abcdefg bcdefgh cdefghi defghij"

/-- The main-topic question produced for the empty text (its topic defaults
to "Learning Concepts" and the distractor lookup misses). -/
def sampleTopicQuestion : QuizQuestion :=
  { question := "What is the main topic of this text?",
    options := ["Learning Concepts", "Related but different concept",
                "Related but different concept", "A completely different subject"],
    correct := 0,
    explanation := "The text primarily focuses on Learning Concepts, as evidenced by the content and key terms." }

/-- A sample stored user for the auth witnesses. -/
def sampleUser : User :=
  { id := "7", email := "a@b.c", password := "stored-hash", name := "Sam",
    createdAt := "t0", lastLogin := "t0" }

/-- A sample study session for the session-store witness. -/
def sampleSession : StudySession :=
  { id := "1", userId := "u", originalText := "", fullTextLength := 0,
    results := { summary := none, quiz := none, flashcards := none, keyPoints := none },
    features := [], timestamp := "t", wordCount := 0, inputType := "text", fileName := none }

/-! ### Helper lemmas -/

theorem insertLe_length (le : α → α → Bool) (a : α) (l : List α) :
    (insertLe le a l).length = l.length + 1 := by
  induction l with
  | nil => rfl
  | cons b l ih =>
    unfold insertLe
    split
    · simp
    · simp [ih]

theorem sortLe_length (le : α → α → Bool) (l : List α) :
    (sortLe le l).length = l.length := by
  induction l with
  | nil => rfl
  | cons a l ih => simp [sortLe, insertLe_length, ih]

theorem extractKeyTerms_length (text : String) : (extractKeyTerms text).length = 4 := by
  unfold extractKeyTerms
  split
  · rename_i h
    rw [List.length_take]
    omega
  · rfl

theorem string_append_marker_ne (s : String) : s ++ " [AI Enhanced Summary]" ≠ "" := by
  intro h
  cases s with
  | mk data =>
    have h' : data ++ " [AI Enhanced Summary]".data = [] := congrArg String.data h
    have hlen := congrArg List.length h'
    rw [List.length_append, List.length_nil] at hlen
    have h22 : (" [AI Enhanced Summary]".data).length = 22 := rfl
    omega

theorem generateSmartSummary_ne_empty (text : String) : generateSmartSummary text ≠ "" := by
  unfold generateSmartSummary
  exact string_append_marker_ne _

theorem quizBase_length (text : String) :
    1 ≤ (quizBaseQuestions text).length ∧ (quizBaseQuestions text).length ≤ 3 := by
  have h4 := extractKeyTerms_length text
  unfold quizBaseQuestions
  cases hk : extractKeyTerms text with
  | nil => rw [hk] at h4; simp at h4
  | cons t ts =>
    by_cases h1 : extractMainTopic text ≠ "" <;>
      by_cases h2 : containsProcess text = true <;>
        simp [h1, h2]

theorem quiz_shape (text : String) (q : QuizQuestion) (hq : q ∈ generateSmartQuiz text) :
    q.options.length = 4 ∧ q.correct = 0 := by
  have h4 := extractKeyTerms_length text
  obtain ⟨t, ts, hk⟩ : ∃ t ts, extractKeyTerms text = t :: ts := by
    cases hkt : extractKeyTerms text with
    | nil => rw [hkt] at h4; simp at h4
    | cons a b => exact ⟨a, b, rfl⟩
  unfold generateSmartQuiz at hq
  have hq' := List.take_subset 3 _ hq
  rcases List.mem_append.mp hq' with hbase | hpad
  · unfold quizBaseQuestions at hbase
    rw [hk] at hbase
    rcases List.mem_append.mp hbase with hAB | hC
    · rcases List.mem_append.mp hAB with hA | hB
      · split at hA
        · rw [List.mem_singleton] at hA
          subst hA
          exact ⟨rfl, rfl⟩
        · simp at hA
      · simp only [List.mem_singleton] at hB
        subst hB
        exact ⟨rfl, rfl⟩
    · split at hC
      · rw [List.mem_singleton] at hC
        subst hC
        exact ⟨rfl, rfl⟩
      · simp at hC
  · have := List.eq_of_mem_replicate hpad
    subst this
    exact ⟨rfl, rfl⟩

theorem termFlashcards_length (text : String) : (termFlashcards text).length = 4 := by
  unfold termFlashcards
  rw [List.length_map, extractKeyTerms_length]

theorem pushProcessCards_cons (cards : List Flashcard) (s : Nat × String)
    (steps : List (Nat × String)) :
    pushProcessCards cards (s :: steps) =
      pushProcessCards
        (if cards.length < 6 then cards ++ [{ front := "Step " ++ toString (s.1 + 1), back := s.2 }]
         else cards)
        steps := rfl

theorem pushProcessCards_length_le (steps : List (Nat × String)) :
    ∀ cards : List Flashcard, cards.length ≤ 6 → (pushProcessCards cards steps).length ≤ 6 := by
  induction steps with
  | nil => intro cards h; exact h
  | cons s ss ih =>
    intro cards h
    rw [pushProcessCards_cons]
    apply ih
    split
    · rename_i hlt; rw [List.length_append]; simp; omega
    · exact h

theorem pushProcessCards_length_ge (steps : List (Nat × String)) :
    ∀ cards : List Flashcard, cards.length ≤ (pushProcessCards cards steps).length := by
  induction steps with
  | nil => intro cards; exact Nat.le_refl _
  | cons s ss ih =>
    intro cards
    rw [pushProcessCards_cons]
    refine Nat.le_trans ?_ (ih _)
    split
    · rw [List.length_append]; simp
    · exact Nat.le_refl _

theorem flashcardsBeforeDefaults_length (text : String) :
    4 ≤ (flashcardsBeforeDefaults text).length ∧ (flashcardsBeforeDefaults text).length ≤ 6 := by
  unfold flashcardsBeforeDefaults
  split
  · constructor
    · have := pushProcessCards_length_ge (extractProcessSteps text).enum (termFlashcards text)
      rw [termFlashcards_length] at this
      exact this
    · apply pushProcessCards_length_le
      rw [termFlashcards_length]
      omega
  · rw [termFlashcards_length]
    omega

theorem summaryLe_eq :
    (fun a b : SummarySentence => decide (summaryCmp a b ≤ 0)) = summaryKeywordFirstLe := by
  funext a b
  unfold summaryCmp summaryKeywordFirstLe
  by_cases ha : a.hasKeywords <;> by_cases hb : b.hasKeywords <;>
    by_cases hl : a.length = b.length <;>
      simp [ha, hb, hl, sub_nonpos, decide_eq_decide] <;> omega

theorem positionLe_eq_summary :
    (fun a b : SummarySentence => decide ((a.position : Int) - (b.position : Int) ≤ 0)) =
    (fun a b : SummarySentence => decide (a.position ≤ b.position)) := by
  funext a b
  simp [sub_nonpos, decide_eq_decide]

theorem scoreLe_eq :
    (fun a b : ScoredSentence => decide (b.score - a.score ≤ 0)) =
    (fun a b : ScoredSentence => decide (b.score ≤ a.score)) := by
  funext a b
  simp [sub_nonpos]

theorem positionLe_eq_scored :
    (fun a b : ScoredSentence => decide ((a.position : Int) - (b.position : Int) ≤ 0)) =
    (fun a b : ScoredSentence => decide (a.position ≤ b.position)) := by
  funext a b
  simp [sub_nonpos, decide_eq_decide]

/-! ### The claims -/

/-- C1: for every input text of at least 30 characters, the heuristics
engine returns a non-empty summary, 2–3 quiz items each with exactly 4
options and a correct index in [0, 3], 4–6 flashcards, and at most 5 key
points. (The bounds in fact hold for every text; the length hypothesis
mirrors the claim.) -/
theorem claim1_artifact_bounds (text : String) (_h : 30 ≤ text.length) :
    generateSmartSummary text ≠ "" ∧
    (2 ≤ (generateSmartQuiz text).length ∧ (generateSmartQuiz text).length ≤ 3) ∧
    (∀ q ∈ generateSmartQuiz text, q.options.length = 4 ∧ q.correct ≤ 3) ∧
    (4 ≤ (generateSmartFlashcards text).length ∧ (generateSmartFlashcards text).length ≤ 6) ∧
    (extractSmartKeyPoints text).length ≤ 5 := by
  refine ⟨generateSmartSummary_ne_empty text, ?_, ?_, ?_, ?_⟩
  · have hb := quizBase_length text
    unfold generateSmartQuiz
    rw [List.length_take, List.length_append, List.length_replicate]
    omega
  · intro q hq
    obtain ⟨h1, h2⟩ := quiz_shape text q hq
    exact ⟨h1, by omega⟩
  · have hf := flashcardsBeforeDefaults_length text
    have hd : (defaultFlashcards text).length = 4 := rfl
    unfold generateSmartFlashcards
    rw [List.length_take, List.length_append, List.length_drop, hd]
    omega
  · unfold extractSmartKeyPoints
    rw [List.length_map, List.enum_length, sortLe_length, List.length_take]
    omega

/-- Witness for C1 at a concrete study text. -/
theorem claim1_artifact_bounds_witness :
    generateSmartSummary sampleEducationText ≠ "" ∧
    (2 ≤ (generateSmartQuiz sampleEducationText).length ∧
      (generateSmartQuiz sampleEducationText).length ≤ 3) ∧
    (∀ q ∈ generateSmartQuiz sampleEducationText, q.options.length = 4 ∧ q.correct ≤ 3) ∧
    (4 ≤ (generateSmartFlashcards sampleEducationText).length ∧
      (generateSmartFlashcards sampleEducationText).length ≤ 6) ∧
    (extractSmartKeyPoints sampleEducationText).length ≤ 5 :=
  claim1_artifact_bounds sampleEducationText (by decide)

/-- C2: every quiz question produced by `generateSmartQuiz`, on every input
text, has exactly 4 options and correct-answer index 0 — topic, key-term,
process and generic padding questions alike. -/
theorem claim2_quiz_correct_zero (text : String) (q : QuizQuestion)
    (hq : q ∈ generateSmartQuiz text) : q.options.length = 4 ∧ q.correct = 0 :=
  quiz_shape text q hq

/-- Witness for C2: the main-topic question generated for the empty text. -/
theorem claim2_quiz_correct_zero_witness :
    sampleTopicQuestion.options.length = 4 ∧ sampleTopicQuestion.correct = 0 :=
  claim2_quiz_correct_zero "" sampleTopicQuestion (by decide)

/-- C3: the fallback summary is computed exactly as the specification
describes — split on sentence terminators, keep sentences longer than 10
characters, sort with the (keyword, longer-length, earlier-position)
tie-break order, take the top 4, restore original order, join with periods,
append the fixed marker suffix. -/
theorem claim3_summary_pipeline (text : String) :
    generateSmartSummary text = summaryClaimed text := by
  unfold generateSmartSummary summaryClaimed
  rw [summaryLe_eq, positionLe_eq_summary]

/-- C4: key-point extraction keeps sentences longer than 15 characters,
scores them by `min(length/50, 3) + 2·keyword + 2·definition +
max(0, (10 − position)/5)`, selects the top 5 by score, re-sorts them into
original sentence order and numbers them from 1 — exactly the specification's
pipeline. -/
theorem claim4_keypoints_pipeline (text : String) :
    extractSmartKeyPoints text = keyPointsClaimed text := by
  unfold extractSmartKeyPoints keyPointsClaimed scoredSentences keyPointScore
  rw [scoreLe_eq, positionLe_eq_scored]

/-- C5, counterexample: on `keyTermsGapText` the source's `extractKeyTerms`
(which caps the unique-token list at 8 before filtering) disagrees with the
claim's description (which has no such cap): the source returns the generic
set while the described pipeline returns the four later alphabetic tokens. -/
theorem claim5_counterexample :
    extractKeyTerms keyTermsGapText ≠ keyTermsClaimed keyTermsGapText := by
  decide

/-- C5, amended: key-term extraction takes the whitespace tokens longer than
6 characters, deduplicates them preserving first-seen order, keeps only the
first 8 unique tokens, drops stopwords and non-alphabetic tokens among those,
and returns the first 4; whenever fewer than 4 of those qualify it returns
the fixed generic set. -/
theorem claim5_keyterms_amended (text : String) :
    extractKeyTerms text = keyTermsAmended text := rfl

/-- C6: each append inserts the new session at the front and truncates to the
50 most recent entries — a global cap — so after any number of appends (at
least one) the persisted session list never exceeds 50 entries. -/
theorem claim6_session_cap (init adds : List StudySession) (h : adds ≠ []) :
    (adds.foldl (fun sessions s => createStudySession s sessions) init).length ≤ 50 ∧
    (∀ (s : StudySession) (sessions : List StudySession),
      createStudySession s sessions = (s :: sessions).take 50 ∧
      (createStudySession s sessions).head? = some s) := by
  constructor
  · have step_le : ∀ (s : StudySession) (l : List StudySession),
        (createStudySession s l).length ≤ 50 := by
      intro s l
      unfold createStudySession
      rw [List.length_take]
      omega
    have preserve : ∀ (rest acc : List StudySession), acc.length ≤ 50 →
        (rest.foldl (fun sessions s => createStudySession s sessions) acc).length ≤ 50 := by
      intro rest
      induction rest with
      | nil => intro acc hacc; simpa using hacc
      | cons a l ih =>
        intro acc hacc
        rw [List.foldl_cons]
        exact ih _ (step_le a acc)
    cases adds with
    | nil => exact absurd rfl h
    | cons a rest =>
      rw [List.foldl_cons]
      exact preserve rest _ (step_le a init)
  · intro s sessions
    exact ⟨rfl, rfl⟩

/-- Witness for C6: a single append to the empty store. -/
theorem claim6_session_cap_witness :
    (([sampleSession] : List StudySession).foldl
        (fun sessions s => createStudySession s sessions) []).length ≤ 50 ∧
    (∀ (s : StudySession) (sessions : List StudySession),
      createStudySession s sessions = (s :: sessions).take 50 ∧
      (createStudySession s sessions).head? = some s) :=
  claim6_session_cap [] [sampleSession] (by simp)

/-- C9: quiz generation is deterministic — two runs on identical input text
produce identical question lists (the embedding of `generateSmartQuiz` is a
pure function; the source uses no randomness). -/
theorem claim9_quiz_deterministic (t₁ t₂ : String) (h : t₁ = t₂) :
    generateSmartQuiz t₁ = generateSmartQuiz t₂ := by
  rw [h]

/-- Witness for C9 at a concrete text. -/
theorem claim9_quiz_deterministic_witness :
    generateSmartQuiz sampleEducationText = generateSmartQuiz sampleEducationText :=
  claim9_quiz_deterministic sampleEducationText sampleEducationText rfl

/-- C7: registering an email that already exists in the store yields the 409
conflict response (given input that passes the field validations), and a
login with a wrong password for an existing email yields exactly the same
401 "Invalid email or password" response as a login for a nonexistent email
— never a 404. -/
theorem claim7_conflict_and_auth_errors :
    (∀ (hash : String → String) (sign : String → String → String)
        (nowId nowIso email password name : String) (users : List User)
        (outcome : WriteOutcome),
      email ≠ "" → password ≠ "" → name ≠ "" → ¬ password.length < 6 →
      jsIncludes email "@" = true →
      (users.find? (fun u => u.email == jsToLower email)).isSome →
      (registerHandler hash sign nowId nowIso email password name users outcome).1 =
        { status := 409, success := false,
          error := some "User with this email already exists", token := none }) ∧
    (∀ (compare : String → String → Bool) (sign : String → String → String)
        (nowIso email password : String) (users : List User) (u : User),
      email ≠ "" → password ≠ "" →
      users.find? (fun x => x.email == jsToLower email) = some u →
      compare password u.password = false →
      (loginHandler compare sign nowIso email password users).1 =
        { status := 401, success := false,
          error := some "Invalid email or password", token := none } ∧
      (loginHandler compare sign nowIso email password users).1.status ≠ 404) ∧
    (∀ (compare : String → String → Bool) (sign : String → String → String)
        (nowIso email password : String) (users : List User),
      email ≠ "" → password ≠ "" →
      users.find? (fun x => x.email == jsToLower email) = none →
      (loginHandler compare sign nowIso email password users).1 =
        { status := 401, success := false,
          error := some "Invalid email or password", token := none }) := by
  refine ⟨?_, ?_, ?_⟩
  · intro hash sign nowId nowIso email password name users outcome h1 h2 h3 h4 h5 h6
    obtain ⟨u, hu⟩ := Option.isSome_iff_exists.mp h6
    simp [registerHandler, h1, h2, h3, h4, h5, hu]
  · intro compare sign nowIso email password users u h1 h2 hfind hcmp
    simp [loginHandler, h1, h2, hfind, hcmp]
  · intro compare sign nowIso email password users h1 h2 hfind
    simp [loginHandler, h1, h2, hfind]

/-- Witness for C7: a duplicate registration against a store holding
`sampleUser`, a wrong-password login for that user, and a login for an
unknown email, all at concrete inputs. -/
theorem claim7_conflict_and_auth_errors_witness :
    (registerHandler (fun p => p ++ "#h") (fun a b => a ++ b) "9" "t1"
        "a@b.c" "secret1" "Sam" [sampleUser] .okVerified).1 =
      { status := 409, success := false,
        error := some "User with this email already exists", token := none } ∧
    ((loginHandler (fun _ _ => false) (fun a b => a ++ b) "t1"
        "a@b.c" "wrongpw" [sampleUser]).1 =
      { status := 401, success := false,
        error := some "Invalid email or password", token := none } ∧
      (loginHandler (fun _ _ => false) (fun a b => a ++ b) "t1"
        "a@b.c" "wrongpw" [sampleUser]).1.status ≠ 404) ∧
    (loginHandler (fun _ _ => false) (fun a b => a ++ b) "t1"
        "ghost@b.c" "wrongpw" [sampleUser]).1 =
      { status := 401, success := false,
        error := some "Invalid email or password", token := none } :=
  ⟨claim7_conflict_and_auth_errors.1 (fun p => p ++ "#h") (fun a b => a ++ b) "9" "t1"
      "a@b.c" "secret1" "Sam" [sampleUser] .okVerified
      (by decide) (by decide) (by decide) (by decide) (by decide) (by decide),
   claim7_conflict_and_auth_errors.2.1 (fun _ _ => false) (fun a b => a ++ b) "t1"
      "a@b.c" "wrongpw" [sampleUser] sampleUser
      (by decide) (by decide) (by decide) rfl,
   claim7_conflict_and_auth_errors.2.2 (fun _ _ => false) (fun a b => a ++ b) "t1"
      "ghost@b.c" "wrongpw" [sampleUser]
      (by decide) (by decide) (by decide)⟩

/-- C8: whenever the remote summarization call fails in any of the ways the
claim lists (`isRemoteFailure`), `generateSummary` returns the heuristic
fallback summary, which is a non-empty string; the embedding is a total
function, so no exception propagates. -/
theorem claim8_remote_fallback (outcome : FetchOutcome) (text : String)
    (h : isRemoteFailure outcome = true) :
    generateSummary outcome text = generateSmartSummary text ∧
    generateSummary outcome text ≠ "" := by
  have hfb : generateSummary outcome text = generateSmartSummary text := by
    cases outcome with
    | threw m => rfl
    | response ok status json =>
      cases ok with
      | false => rfl
      | true =>
        cases json with
        | none => rfl
        | some payload =>
          cases payload with
          | mk error items =>
            cases error with
            | none =>
              cases items with
              | nil => rfl
              | cons item rest =>
                cases item with
                | mk st =>
                  cases st with
                  | none => rfl
                  | some s => exact absurd h (by simp [isRemoteFailure])
            | some e =>
              by_cases he : e = ""
              · subst he
                cases items with
                | nil => rfl
                | cons item rest =>
                  cases item with
                  | mk st =>
                    cases st with
                    | none => rfl
                    | some s => exact absurd h (by simp [isRemoteFailure])
              · simp [generateSummary, he]
  exact ⟨hfb, hfb ▸ generateSmartSummary_ne_empty text⟩

/-- Witness for C8: an HTTP 503 response with no decodable body. -/
theorem claim8_remote_fallback_witness :
    generateSummary (.response false 503 none) sampleEducationText =
      generateSmartSummary sampleEducationText ∧
    generateSummary (.response false 503 none) sampleEducationText ≠ "" :=
  claim8_remote_fallback (.response false 503 none) sampleEducationText (by decide)

/-- C10: `writeUsers` returns true on every path (including the
verification-failure and outer-catch paths, where the data survives only in
the in-memory mirror), so the registration handler's 500
"Failed to create user account" branch is unreachable and registration
returns 201 whenever validation and the duplicate-email check pass. -/
theorem claim10_write_always_true :
    (∀ outcome : WriteOutcome, writeUsers outcome = true) ∧
    (∀ (hash : String → String) (sign : String → String → String)
        (nowId nowIso email password name : String) (users : List User)
        (outcome : WriteOutcome),
      email ≠ "" → password ≠ "" → name ≠ "" → ¬ password.length < 6 →
      jsIncludes email "@" = true →
      users.find? (fun u => u.email == jsToLower email) = none →
      (registerHandler hash sign nowId nowIso email password name users outcome).1.status = 201 ∧
      (registerHandler hash sign nowId nowIso email password name users outcome).1.status ≠ 500) := by
  constructor
  · intro outcome
    cases outcome <;> rfl
  · intro hash sign nowId nowIso email password name users outcome h1 h2 h3 h4 h5 h6
    cases outcome <;> simp [registerHandler, writeUsers, h1, h2, h3, h4, h5, h6]

/-- Witness for C10: a fresh registration against the empty store under the
outer-catch file-system outcome. -/
theorem claim10_write_always_true_witness :
    writeUsers .outerThrew = true ∧
    ((registerHandler (fun p => p ++ "#h") (fun a b => a ++ b) "9" "t1"
        "a@b.c" "secret1" "Sam" [] .outerThrew).1.status = 201 ∧
      (registerHandler (fun p => p ++ "#h") (fun a b => a ++ b) "9" "t1"
        "a@b.c" "secret1" "Sam" [] .outerThrew).1.status ≠ 500) :=
  ⟨claim10_write_always_true.1 .outerThrew,
   claim10_write_always_true.2 (fun p => p ++ "#h") (fun a b => a ++ b) "9" "t1"
      "a@b.c" "secret1" "Sam" [] .outerThrew
      (by decide) (by decide) (by decide) (by decide) (by decide) (by decide)⟩

end StudyMate
